import Mathlib

/-!
Verification development for the ppt_assistant web client's task-progress
synchronization engine.

Shallow embedding of:
* the Progress Aggregator (`useProgressStore` in `src/unnamed/part_004`,
  the de-duplicating revision of `apps/web/src/stores/progress.ts` that the
  design document adopts as authoritative);
* the Stream Connection Manager (`WebSocketService` in
  `apps/web/src/services/websocket.ts`);
* the relevant pieces of the composables `useTaskProgress.ts`
  (`initWebSocket`, `cancelTask`) and `useWebSocket.ts` (the inbound
  message filter).

Modelling conventions, applied uniformly:
* JavaScript fields that may be absent are `Option` values; a JS truthiness
  test on a string field is `truthyS` (absent and empty string are both
  falsy), on a number field `truthyN` (absent and 0 are both falsy); objects
  are always truthy, so a truthiness test on an object-valued field is
  `Option.isSome`.
* `nanoid()` and `new Date()` are impure id/time sources; they are modelled
  by a fresh-counter field `nextId` threaded through the state (the claims
  never depend on the actual id or timestamp values).
* JavaScript exceptions are modelled with `Except String`; the only throwing
  site the claims touch is property access on `null`/`undefined`.
* `Set<string>` is modelled as a `List String` (elements are only inserted
  after a membership test, so the list never holds duplicates).
-/

namespace Progress

/-- Wire shape of a task error object (`TaskError` in the store). -/
structure TaskError where
  has_error : Bool
  error_code : Option String
  error_message : Option String
  can_retry : Bool
deriving DecidableEq, Repr

/-- One entry of the wire field `preview_images`; the store only ever reads
its `preview_url` member. -/
structure PreviewImageRef where
  slide_index : Option Int
  preview_url : Option String
deriving DecidableEq, Repr

/-- The fields of an inbound progress event that `updateTaskProgress` reads.
Every field is optional, mirroring the untyped (`any`) JS value; a field the
sender omitted is `none`. The `type` field is only inspected by the
connection layer (`useWebSocket.ts`), never by the store. This typed shape
covers inputs whose `step_description` is absent or a string; a truthy
non-string `step_description` makes the source throw at its `includes` call
and is represented by the dynamic layer (`RawEventDyn`) further below. -/
structure RawEvent where
  type : Option String := none
  status : Option String := none
  error : Option TaskError := none
  current_step : Option String := none
  step_description : Option String := none
  progress : Option Int := none
  preview_url : Option String := none
  preview_images : Option (List PreviewImageRef) := none
deriving DecidableEq, Repr

/-- The event with every field absent: what reading recognized fields off an
unrecognized value (a primitive, or an object without these fields)
produces. -/
def emptyEvent : RawEvent := {}

/-- A raw JavaScript value arriving at `updateTaskProgress`. `prim` stands
for any non-object primitive (number, string, boolean): reading a property
of a primitive yields `undefined`, so it behaves exactly like an object
carrying none of the recognized fields. `obj` is a JS object, carrying an
optional nested `data` object (the envelope case) and its own event
fields. -/
inductive RawInput where
  | jsNull
  | jsUndefined
  | prim
  | obj (dataField : Option RawEvent) (self : RawEvent)
deriving DecidableEq, Repr

/-- JS truthiness of an optional string field: `undefined` and `''` are
falsy. -/
def truthyS : Option String → Bool
  | none => false
  | some s => s != ""

/-- JS truthiness of an optional number field: `undefined` and `0` are
falsy. -/
def truthyN : Option Int → Bool
  | none => false
  | some n => n != 0

/-- `listPrefixB needle hay` is true when `needle` is a prefix of `hay`. -/
def listPrefixB : List Char → List Char → Bool
  | [], _ => true
  | _ :: _, [] => false
  | a :: as, b :: bs => a == b && listPrefixB as bs

/-- `listIncludes needle hay`: does `needle` occur contiguously in `hay`? -/
def listIncludes (needle : List Char) : List Char → Bool
  | [] => listPrefixB needle []
  | h :: t => listPrefixB needle (h :: t) || listIncludes needle t

/-- JavaScript `s.includes(sub)`. -/
def strIncludes (s sub : String) : Bool :=
  listIncludes sub.toList s.toList

/-- A materialized progress message (`ProgressMessage` in the store).
`id` and `time` come from `nanoid()` / `new Date()`, modelled by the
state's fresh counter. -/
structure ProgressMessage where
  id : Nat
  time : Nat
  step : String
  message : String
  progress : Int
  isError : Bool
deriving DecidableEq, Repr

/-- A materialized preview artifact (`PreviewImage` in the store). -/
structure PreviewImage where
  id : Nat
  url : String
  time : Nat
deriving DecidableEq, Repr

/-- The aggregated state owned by the store: the five reactive refs plus the
dedup set `processedMessages`, plus the fresh-id counter that models
`nanoid()` / `new Date()`. -/
structure ProgressState where
  taskStatus : Option String
  progressMessages : List ProgressMessage
  previewImages : List PreviewImage
  isGenerating : Bool
  taskError : Option TaskError
  processedMessages : List String
  nextId : Nat
deriving DecidableEq, Repr

/-- The store's initial state: every ref starts at `null` / `[]` / `false`
and the dedup set empty. -/
def initialState : ProgressState :=
  { taskStatus := none
    progressMessages := []
    previewImages := []
    isGenerating := false
    taskError := none
    processedMessages := []
    nextId := 0 }

/-- `generateMessageKey` from the store: the template string
`${current_step || 'unknown'}-${progress || 0}-${step_description || ''}`. -/
def generateMessageKey (data : RawEvent) : String :=
  (if truthyS data.current_step then data.current_step.getD "" else "unknown")
    ++ "-"
    ++ toString (if truthyN data.progress then data.progress.getD 0 else 0)
    ++ "-"
    ++ (if truthyS data.step_description then data.step_description.getD "" else "")

/-- Status update step: `if (data.status) taskStatus.value = data.status`. -/
def statusStep (data : RawEvent) (s : ProgressState) : ProgressState :=
  if truthyS data.status then { s with taskStatus := data.status } else s

/-- The default error synthesized when status is `failed` but the event
carries no `error` field. -/
def defaultTaskError (data : RawEvent) : TaskError :=
  { has_error := true
    error_code := some "UNKNOWN_ERROR"
    error_message :=
      some (if truthyS data.step_description
            then data.step_description.getD "" else "任务执行失败")
    can_retry := true }

/-- Error materialization step, the `if (data.error) ... else if ... else if`
chain of the store. The final fallback (taskError unchanged) is unreachable
in the JS chain because the last two conditions are complementary; it is
kept to mirror the source structure. -/
def errorStep (data : RawEvent) (s : ProgressState) : ProgressState :=
  { s with taskError :=
      if data.error.isSome then data.error
      else if data.status == some "failed" then some (defaultTaskError data)
      else if !(data.status == some "failed") then none
      else s.taskError }

/-- The suppression test inside the message-admission block: once the
(already updated) status is `failed`, a novel message is dropped when the
incoming event is completion-flavored. -/
def suppressCompletion (data : RawEvent) (s : ProgressState) : Bool :=
  s.taskStatus == some "failed" &&
    (data.status == some "completed" ||
     strIncludes (data.step_description.getD "") "完成" ||
     strIncludes (data.step_description.getD "") "已完成")

/-- The `ProgressMessage` literal built in the message-admission block:
`id` from `nanoid()`, `time` from `new Date()` (both the fresh counter),
`step` from `data.current_step || '处理中'`, `progress` from
`data.progress || 0`, `isError` from `data.status === 'failed'`. -/
def newMessage (data : RawEvent) (s : ProgressState) : ProgressMessage :=
  { id := s.nextId
    time := s.nextId
    step := if truthyS data.current_step then data.current_step.getD ""
            else "处理中"
    message := data.step_description.getD ""
    progress := if truthyN data.progress then data.progress.getD 0 else 0
    isError := data.status == some "failed" }

/-- Appending a fresh `ProgressMessage` and recording its dedup key. -/
def pushMessage (data : RawEvent) (key : String) (s : ProgressState) :
    ProgressState :=
  { s with progressMessages := s.progressMessages ++ [newMessage data s]
           processedMessages := s.processedMessages ++ [key]
           nextId := s.nextId + 1 }

/-- Adding one preview URL with the existence check
`previewImages.value.some(p => p.url === url)`. -/
def addPreviewUrl (url : String) (s : ProgressState) : ProgressState :=
  if s.previewImages.any (fun p => p.url == url) then s
  else
    { s with previewImages :=
        s.previewImages ++ [{ id := s.nextId, url := url, time := s.nextId }]
             nextId := s.nextId + 1 }

/-- The body of the `preview_images.forEach` callback: each entry with a
truthy `preview_url` goes through the URL-deduplicating add. -/
def addImg (acc : ProgressState) (img : PreviewImageRef) : ProgressState :=
  if truthyS img.preview_url then addPreviewUrl (img.preview_url.getD "") acc
  else acc

/-- The single-`preview_url` block: `if (data.preview_url) { ... }`, with
the deduplicating add. -/
def previewSingle (data : RawEvent) (s : ProgressState) : ProgressState :=
  if truthyS data.preview_url then addPreviewUrl (data.preview_url.getD "") s
  else s

/-- The `preview_images` block: `data.preview_images && Array.isArray(...)`
(a `none` field covers absent, falsy and non-array values alike, all of
which skip the block), then the `forEach`. -/
def previewMany (data : RawEvent) (s : ProgressState) : ProgressState :=
  match data.preview_images with
  | some imgs => imgs.foldl addImg s
  | none => s

/-- Preview admission step of the store, gate included:
`(data.status === 'completed' && !taskError.value) || data.preview_url`,
then the single `preview_url` block and then the `preview_images` block. -/
def previewStep (data : RawEvent) (s : ProgressState) : ProgressState :=
  if (data.status == some "completed" && s.taskError == none)
      || truthyS data.preview_url then
    previewMany data (previewSingle data s)
  else s

/-- Message admission with dedup and completion-suppression, followed by
preview admission, acting on the state `s2` that already absorbed the
status and error updates. The suppression branch is an early `return` in
the source, so it alone skips the preview step. -/
def messageStep (data : RawEvent) (s2 : ProgressState) : ProgressState :=
  if truthyS data.step_description then
    if s2.processedMessages.contains (generateMessageKey data) then
      previewStep data s2
    else if suppressCompletion data s2 then s2
    else previewStep data (pushMessage data (generateMessageKey data) s2)
  else previewStep data s2

/-- The body of `updateTaskProgress` on the already-unwrapped `data` value
(`src/unnamed/part_004`, lines 61-153): the failed/completed guard, then
status update, error materialization, message admission and preview
admission in source order. -/
def applyData (data : RawEvent) (s : ProgressState) : ProgressState :=
  if s.taskStatus == some "failed" && data.status == some "completed" then s
  else messageStep data (errorStep data (statusStep data s))

/-- The unwrap line `const data = progressData.data ? progressData.data :
progressData`. Property access on `null`/`undefined` throws, so those inputs
yield no data. -/
def effectiveData : RawInput → Option RawEvent
  | .jsNull => none
  | .jsUndefined => none
  | .prim => some emptyEvent
  | .obj dataField self => some (dataField.getD self)

/-- The modelled message of the `TypeError` thrown by `progressData.data`
when `progressData` is `null` or `undefined` (exact browser wording
abstracted). -/
def nullAccessError : String := "TypeError: null has no properties"

/-- `updateTaskProgress` of the store over the typed event shape: unwrap,
then fold the event into the state; within this typed domain the only throw
is the unwrap `TypeError` on `null`/`undefined`. The additional throw on a
truthy non-string `step_description` lives outside this domain and is
modelled by `updateTaskProgressDyn` below, which agrees with this function
on every typed input (`applyDataDyn_agrees`). -/
def updateTaskProgress (input : RawInput) (s : ProgressState) :
    Except String ProgressState :=
  match effectiveData input with
  | none => .error nullAccessError
  | some data => .ok (applyData data s)

/-- `setTaskStatus` of the store. -/
def setTaskStatus (status : String) (s : ProgressState) : ProgressState :=
  { s with taskStatus := some status }

/-- `setIsGenerating` of the store. -/
def setIsGenerating (value : Bool) (s : ProgressState) : ProgressState :=
  { s with isGenerating := value }

/-- `resetProgress` of the store: every ref back to its initial value and
the dedup set cleared. -/
def resetProgress (s : ProgressState) : ProgressState :=
  { s with taskStatus := none
           progressMessages := []
           previewImages := []
           isGenerating := false
           taskError := none
           processedMessages := [] }

/-- One operation against the store, for stating invariants over arbitrary
call sequences. -/
inductive AggOp where
  | apply (data : RawEvent)
  | reset
deriving DecidableEq, Repr

/-- Run one store operation. -/
def aggStep (s : ProgressState) : AggOp → ProgressState
  | .apply data => applyData data s
  | .reset => resetProgress s

/-- Run a sequence of store operations. -/
def runOps (ops : List AggOp) (s : ProgressState) : ProgressState :=
  ops.foldl aggStep s

/-- An operation that carries no explicit wire error detail: an `apply` of
an event whose `error` field is absent, or a `reset`. -/
def opCleanB : AggOp → Bool
  | .apply data => data.error.isNone
  | .reset => true

/-!
Dynamic layer. The typed `RawEvent` above fixes `step_description` to
`Option String`, which covers every input whose `step_description` is
absent or a string. But the source is untyped: a truthy non-string
`step_description` (a number, boolean or plain object) passes the
truthiness test and then makes `data.step_description.includes('完成')`
throw a TypeError when the suppression check is reached. The definitions
below re-run the same algorithm over a wider event type that represents
such values, and record exceptions explicitly: a call returns the final
state of the store's refs (mutations made before a throw persist, as they
do for Vue refs) together with the thrown error, if any.
-/

end Progress

namespace WS

/-!
Embedding of the singleton `WebSocketService`
(`apps/web/src/services/websocket.ts`).

* The URL construction (`window.location` protocol/host and the persisted
  client id) is not observable by any claim; a socket records the task id it
  was opened for, plus a generation number distinguishing distinct
  `new WebSocket(...)` objects.
* `disconnect` detaches every handler before dropping the socket, so a
  dropped socket can never call back into the service; discarded sockets are
  therefore removed from the state entirely.
* `window.setTimeout` is modelled by a fresh timer id: `reconnectTimer` is
  the JS field (which keeps holding a stale id after the timer fires, since
  the callback never clears it), while `pending` tracks the timer that is
  actually scheduled and not yet fired or cleared.
-/

/-- Browser readyState of a socket, as far as the service observes it. -/
inductive ReadyState where
  | connecting
  | opened
  | closed
deriving DecidableEq, Repr

/-- One `WebSocket` object created by `connect`. -/
structure Socket where
  gen : Nat
  taskId : String
  readyState : ReadyState
deriving DecidableEq, Repr

/-- The mutable fields of the `WebSocketService` singleton, plus the
bookkeeping counters for fresh socket generations and timer ids. -/
structure WSState where
  socket : Option Socket
  taskId : Option String
  reconnectAttempts : Nat
  reconnectTimer : Option Nat
  pending : Option Nat
  nextSocketGen : Nat
  nextTimerId : Nat
deriving DecidableEq, Repr

/-- `maxReconnectAttempts` field of the service. -/
def maxReconnectAttempts : Nat := 5

/-- `reconnectTimeout` field of the service: the fixed reconnect delay in
milliseconds. -/
def reconnectTimeoutMs : Nat := 3000

/-- The service's fields at module load. -/
def initWSState : WSState :=
  { socket := none
    taskId := none
    reconnectAttempts := 0
    reconnectTimer := none
    pending := none
    nextSocketGen := 0
    nextTimerId := 0 }

/-- `disconnect()`: clear a pending reconnect timer, detach the handlers and
close/drop the socket, then reset `taskId` and `reconnectAttempts`. -/
def disconnect (s : WSState) : WSState :=
  let s1 :=
    match s.reconnectTimer with
    | some tid =>
        { s with reconnectTimer := none
                 pending := if s.pending == some tid then none else s.pending }
    | none => s
  let s2 :=
    match s1.socket with
    | some _ => { s1 with socket := none }
    | none => s1
  { s2 with taskId := none, reconnectAttempts := 0 }

/-- `connect(taskId)`: assign `this.taskId`, tear down any existing
connection via `disconnect()` (which resets `taskId` back to `null`), then
create a fresh `WebSocket` in the `CONNECTING` state with all handlers
attached. Socket construction is assumed to succeed (the `catch` branch only
logs). -/
def connect (t : String) (s : WSState) : WSState :=
  let s0 := { s with taskId := some t }
  let s1 := disconnect s0
  { s1 with
      socket := some { gen := s1.nextSocketGen, taskId := t,
                       readyState := .connecting }
      nextSocketGen := s1.nextSocketGen + 1 }

/-- The condition guarding `scheduleReconnect()` inside the `onclose`
handler: `this.taskId && this.reconnectAttempts < this.maxReconnectAttempts`. -/
def oncloseReconnectCond (s : WSState) : Bool :=
  s.taskId.isSome && decide (s.reconnectAttempts < maxReconnectAttempts)

/-- `scheduleReconnect()`: clear any previous timer, bump the attempt
counter, and schedule a fresh reconnect timer. -/
def scheduleReconnect (s : WSState) : WSState :=
  let s1 :=
    match s.reconnectTimer with
    | some tid =>
        { s with pending := if s.pending == some tid then none else s.pending }
    | none => s
  let tid := s1.nextTimerId
  { s1 with reconnectAttempts := s1.reconnectAttempts + 1
            reconnectTimer := some tid
            pending := some tid
            nextTimerId := tid + 1 }

/-- `onopen` firing on the current socket: the browser marks the socket
open, the handler resets `reconnectAttempts`. -/
def onopen (s : WSState) : WSState :=
  match s.socket with
  | some sock =>
      { s with socket := some { sock with readyState := .opened }
               reconnectAttempts := 0 }
  | none => s

/-- An unexpected closure of the current socket: the handler nulls
`this.socket` and, under `oncloseReconnectCond`, schedules a reconnect. -/
def oncloseUnexpected (s : WSState) : WSState :=
  match s.socket with
  | none => s
  | some _ =>
      let s1 := { s with socket := none }
      if oncloseReconnectCond s1 then scheduleReconnect s1 else s1

/-- The reconnect timer firing: the timer is no longer pending (the
`reconnectTimer` field keeps the stale id — the callback never clears it),
and the callback reconnects only when `this.taskId` is truthy. -/
def timerFire (s : WSState) : WSState :=
  match s.pending with
  | none => s
  | some _ =>
      let s1 := { s with pending := none }
      match s1.taskId with
      | some t => connect t s1
      | none => s1

/-- `isConnected()`: a socket exists and its readyState is `OPEN`. -/
def isConnected (s : WSState) : Bool :=
  match s.socket with
  | some sock => sock.readyState == .opened
  | none => false

/-- `getTaskId()`. -/
def getTaskId (s : WSState) : Option String :=
  s.taskId

/-- One event hitting the service: a public call or an asynchronous
callback. -/
inductive WSOp where
  | connectOp (t : String)
  | disconnectOp
  | onopenOp
  | oncloseOp
  | onerrorOp
  | timerFireOp
deriving DecidableEq, Repr

/-- Run one service event (`onerror` only logs). -/
def wsStep (s : WSState) : WSOp → WSState
  | .connectOp t => connect t s
  | .disconnectOp => disconnect s
  | .onopenOp => onopen s
  | .oncloseOp => oncloseUnexpected s
  | .onerrorOp => s
  | .timerFireOp => timerFire s

/-- Run a sequence of service events. -/
def runWS (ops : List WSOp) (s : WSState) : WSState :=
  ops.foldl wsStep s

end WS

namespace TaskCtl

/-!
Embedding of the pieces of `apps/web/src/composables/useTaskProgress.ts`
the claims are about: `initWebSocket` and `cancelTask`.
-/

/-- `initWebSocket(taskId)` as it acts on the service state: skip when
already connected to the same task, otherwise disconnect any open connection
and connect anew. (The trailing `clientStore.setCurrentTask(taskId)` call
touches only the client store, not the service.) -/
def initWebSocket (t : String) (s : WS.WSState) : WS.WSState :=
  if WS.isConnected s && (WS.getTaskId s == some t) then s
  else
    let s1 := if WS.isConnected s then WS.disconnect s else s
    WS.connect t s1

/-- The composite client state `cancelTask` touches: the service, the
progress store, the client store's persisted current task id, and the
composable's local `error` ref. -/
structure AppState where
  ws : WS.WSState
  progress : Progress.ProgressState
  clientCurrentTask : Option String
  errorMsg : Option String
deriving DecidableEq, Repr

/-- The message recorded by `cancelTask`'s `catch` block:
`err.message || '取消任务失败'`. -/
def cancelErrMsg (apiErrMsg : String) : String :=
  if apiErrMsg != "" then apiErrMsg else "取消任务失败"

/-- `cancelTask()`: a no-op without a current task id; otherwise it awaits
`pptApi.cancelTask`. Only when that call succeeds does it disconnect the
socket and mark the task cancelled; when the call throws, the `catch` block
records `err.message || '取消任务失败'` and nothing else happens. -/
def cancelTask (apiOk : Bool) (apiErrMsg : String) (st : AppState) : AppState :=
  match st.clientCurrentTask with
  | none => st
  | some _ =>
      if apiOk then
        { st with
            ws := WS.disconnect st.ws
            progress :=
              Progress.setIsGenerating false
                (Progress.setTaskStatus "cancelled" st.progress) }
      else
        { st with errorMsg := some (cancelErrMsg apiErrMsg) }

end TaskCtl

namespace Conn

/-!
Embedding of the two inbound-frame handlers.

An inbound frame is modelled post-`JSON.parse`: `none` when parsing threw
(the `catch` drops the frame), `some v` when it produced the value `v`.
-/

/-- The `onmessage` handler of the `useWebSocket` composable
(`apps/web/src/composables/useWebSocket.ts`): frames whose `type` field is
exactly `'connection_established'` are dropped; every other parsed value is
handed to `onUpdate`. Reading `.type` off a parsed `null` throws inside the
`try`, so such a frame is also dropped. -/
def composableForward : Option Progress.RawInput → Option Progress.RawInput
  | none => none
  | some .jsNull => none
  | some .jsUndefined => none
  | some .prim => some .prim
  | some (.obj dataField self) =>
      if self.type == some "connection_established" then none
      else some (.obj dataField self)

/-- The `onmessage` handler of the singleton `WebSocketService`
(`apps/web/src/services/websocket.ts`): every successfully parsed frame is
passed straight to `updateTaskProgress`, with no filtering; the surrounding
`try`/`catch` also swallows an exception thrown by `updateTaskProgress`
itself, leaving the state as it was. -/
def serviceHandleFrame (frame : Option Progress.RawInput)
    (s : Progress.ProgressState) : Progress.ProgressState :=
  match frame with
  | none => s
  | some v =>
      match Progress.updateTaskProgress v s with
      | .ok s1 => s1
      | .error _ => s

end Conn

/-!
Helper lemmas about the Progress Aggregator embedding. These are shared
infrastructure; the claim theorems follow after them.
-/

namespace Progress

theorem statusStep_progressMessages (d : RawEvent) (s : ProgressState) :
    (statusStep d s).progressMessages = s.progressMessages := by
  unfold statusStep; split <;> rfl

theorem statusStep_processedMessages (d : RawEvent) (s : ProgressState) :
    (statusStep d s).processedMessages = s.processedMessages := by
  unfold statusStep; split <;> rfl

theorem statusStep_previewImages (d : RawEvent) (s : ProgressState) :
    (statusStep d s).previewImages = s.previewImages := by
  unfold statusStep; split <;> rfl

theorem statusStep_taskError (d : RawEvent) (s : ProgressState) :
    (statusStep d s).taskError = s.taskError := by
  unfold statusStep; split <;> rfl

theorem errorStep_progressMessages (d : RawEvent) (s : ProgressState) :
    (errorStep d s).progressMessages = s.progressMessages := rfl

theorem errorStep_processedMessages (d : RawEvent) (s : ProgressState) :
    (errorStep d s).processedMessages = s.processedMessages := rfl

theorem errorStep_previewImages (d : RawEvent) (s : ProgressState) :
    (errorStep d s).previewImages = s.previewImages := rfl

theorem errorStep_taskStatus (d : RawEvent) (s : ProgressState) :
    (errorStep d s).taskStatus = s.taskStatus := rfl

theorem pushMessage_progressMessages (d : RawEvent) (k : String)
    (s : ProgressState) :
    (pushMessage d k s).progressMessages
      = s.progressMessages ++ [newMessage d s] := rfl

theorem pushMessage_processedMessages (d : RawEvent) (k : String)
    (s : ProgressState) :
    (pushMessage d k s).processedMessages = s.processedMessages ++ [k] := rfl

theorem pushMessage_taskStatus (d : RawEvent) (k : String)
    (s : ProgressState) :
    (pushMessage d k s).taskStatus = s.taskStatus := rfl

theorem pushMessage_taskError (d : RawEvent) (k : String)
    (s : ProgressState) :
    (pushMessage d k s).taskError = s.taskError := rfl

theorem pushMessage_previewImages (d : RawEvent) (k : String)
    (s : ProgressState) :
    (pushMessage d k s).previewImages = s.previewImages := rfl

theorem addPreviewUrl_progressMessages (u : String) (s : ProgressState) :
    (addPreviewUrl u s).progressMessages = s.progressMessages := by
  unfold addPreviewUrl; split <;> rfl

theorem addPreviewUrl_processedMessages (u : String) (s : ProgressState) :
    (addPreviewUrl u s).processedMessages = s.processedMessages := by
  unfold addPreviewUrl; split <;> rfl

theorem addPreviewUrl_taskStatus (u : String) (s : ProgressState) :
    (addPreviewUrl u s).taskStatus = s.taskStatus := by
  unfold addPreviewUrl; split <;> rfl

theorem addPreviewUrl_taskError (u : String) (s : ProgressState) :
    (addPreviewUrl u s).taskError = s.taskError := by
  unfold addPreviewUrl; split <;> rfl

theorem addImg_progressMessages (s : ProgressState) (img : PreviewImageRef) :
    (addImg s img).progressMessages = s.progressMessages := by
  unfold addImg; split
  · exact addPreviewUrl_progressMessages _ _
  · rfl

theorem addImg_processedMessages (s : ProgressState) (img : PreviewImageRef) :
    (addImg s img).processedMessages = s.processedMessages := by
  unfold addImg; split
  · exact addPreviewUrl_processedMessages _ _
  · rfl

theorem addImg_taskStatus (s : ProgressState) (img : PreviewImageRef) :
    (addImg s img).taskStatus = s.taskStatus := by
  unfold addImg; split
  · exact addPreviewUrl_taskStatus _ _
  · rfl

theorem addImg_taskError (s : ProgressState) (img : PreviewImageRef) :
    (addImg s img).taskError = s.taskError := by
  unfold addImg; split
  · exact addPreviewUrl_taskError _ _
  · rfl

theorem foldlAddImg_progressMessages (imgs : List PreviewImageRef) :
    ∀ s : ProgressState,
      (imgs.foldl addImg s).progressMessages = s.progressMessages := by
  induction imgs with
  | nil => intro s; rfl
  | cons img rest ih =>
      intro s
      simp only [List.foldl_cons]
      rw [ih, addImg_progressMessages]

theorem foldlAddImg_processedMessages (imgs : List PreviewImageRef) :
    ∀ s : ProgressState,
      (imgs.foldl addImg s).processedMessages = s.processedMessages := by
  induction imgs with
  | nil => intro s; rfl
  | cons img rest ih =>
      intro s
      simp only [List.foldl_cons]
      rw [ih, addImg_processedMessages]

theorem foldlAddImg_taskStatus (imgs : List PreviewImageRef) :
    ∀ s : ProgressState,
      (imgs.foldl addImg s).taskStatus = s.taskStatus := by
  induction imgs with
  | nil => intro s; rfl
  | cons img rest ih =>
      intro s
      simp only [List.foldl_cons]
      rw [ih, addImg_taskStatus]

theorem foldlAddImg_taskError (imgs : List PreviewImageRef) :
    ∀ s : ProgressState,
      (imgs.foldl addImg s).taskError = s.taskError := by
  induction imgs with
  | nil => intro s; rfl
  | cons img rest ih =>
      intro s
      simp only [List.foldl_cons]
      rw [ih, addImg_taskError]

theorem previewSingle_progressMessages (d : RawEvent) (s : ProgressState) :
    (previewSingle d s).progressMessages = s.progressMessages := by
  unfold previewSingle; split
  · exact addPreviewUrl_progressMessages _ _
  · rfl

theorem previewSingle_processedMessages (d : RawEvent) (s : ProgressState) :
    (previewSingle d s).processedMessages = s.processedMessages := by
  unfold previewSingle; split
  · exact addPreviewUrl_processedMessages _ _
  · rfl

theorem previewSingle_taskStatus (d : RawEvent) (s : ProgressState) :
    (previewSingle d s).taskStatus = s.taskStatus := by
  unfold previewSingle; split
  · exact addPreviewUrl_taskStatus _ _
  · rfl

theorem previewSingle_taskError (d : RawEvent) (s : ProgressState) :
    (previewSingle d s).taskError = s.taskError := by
  unfold previewSingle; split
  · exact addPreviewUrl_taskError _ _
  · rfl

theorem previewMany_progressMessages (d : RawEvent) (s : ProgressState) :
    (previewMany d s).progressMessages = s.progressMessages := by
  unfold previewMany
  cases d.preview_images with
  | some imgs => exact foldlAddImg_progressMessages imgs s
  | none => rfl

theorem previewMany_processedMessages (d : RawEvent) (s : ProgressState) :
    (previewMany d s).processedMessages = s.processedMessages := by
  unfold previewMany
  cases d.preview_images with
  | some imgs => exact foldlAddImg_processedMessages imgs s
  | none => rfl

theorem previewMany_taskStatus (d : RawEvent) (s : ProgressState) :
    (previewMany d s).taskStatus = s.taskStatus := by
  unfold previewMany
  cases d.preview_images with
  | some imgs => exact foldlAddImg_taskStatus imgs s
  | none => rfl

theorem previewMany_taskError (d : RawEvent) (s : ProgressState) :
    (previewMany d s).taskError = s.taskError := by
  unfold previewMany
  cases d.preview_images with
  | some imgs => exact foldlAddImg_taskError imgs s
  | none => rfl

theorem previewStep_progressMessages (d : RawEvent) (s : ProgressState) :
    (previewStep d s).progressMessages = s.progressMessages := by
  unfold previewStep
  split
  · rw [previewMany_progressMessages, previewSingle_progressMessages]
  · rfl

theorem previewStep_processedMessages (d : RawEvent) (s : ProgressState) :
    (previewStep d s).processedMessages = s.processedMessages := by
  unfold previewStep
  split
  · rw [previewMany_processedMessages, previewSingle_processedMessages]
  · rfl

theorem previewStep_taskStatus (d : RawEvent) (s : ProgressState) :
    (previewStep d s).taskStatus = s.taskStatus := by
  unfold previewStep
  split
  · rw [previewMany_taskStatus, previewSingle_taskStatus]
  · rfl

theorem previewStep_taskError (d : RawEvent) (s : ProgressState) :
    (previewStep d s).taskError = s.taskError := by
  unfold previewStep
  split
  · rw [previewMany_taskError, previewSingle_taskError]
  · rfl

theorem applyData_of_guard (d : RawEvent) (s : ProgressState)
    (h : (s.taskStatus == some "failed" && d.status == some "completed")
          = true) :
    applyData d s = s := by
  unfold applyData
  simp [h]

theorem generateMessageKey_congr (d1 d2 : RawEvent)
    (h1 : d2.current_step = d1.current_step)
    (h2 : d2.progress = d1.progress)
    (h3 : d2.step_description = d1.step_description) :
    generateMessageKey d2 = generateMessageKey d1 := by
  unfold generateMessageKey
  rw [h1, h2, h3]

theorem messageStep_messages_shape (d : RawEvent) (s2 : ProgressState) :
    ∃ rest, (messageStep d s2).progressMessages = s2.progressMessages ++ rest
      ∧ rest.length ≤ 1 := by
  unfold messageStep
  split
  · split
    · refine ⟨[], ?_, by simp⟩
      rw [previewStep_progressMessages, List.append_nil]
    · split
      · exact ⟨[], by simp⟩
      · refine ⟨[newMessage d s2], ?_, by simp⟩
        rw [previewStep_progressMessages, pushMessage_progressMessages]
  · refine ⟨[], ?_, by simp⟩
    rw [previewStep_progressMessages, List.append_nil]

theorem messageStep_of_contains (d : RawEvent) (s2 : ProgressState)
    (h : s2.processedMessages.contains (generateMessageKey d) = true) :
    (messageStep d s2).progressMessages = s2.progressMessages := by
  unfold messageStep
  split
  · exact previewStep_progressMessages _ _
  · exact previewStep_progressMessages _ _

theorem messageStep_changed_contains (d : RawEvent) (s2 : ProgressState)
    (h : (messageStep d s2).progressMessages ≠ s2.progressMessages) :
    (messageStep d s2).processedMessages.contains (generateMessageKey d)
      = true := by
  revert h
  unfold messageStep
  split
  · split
    · intro h
      exact absurd (previewStep_progressMessages _ _) h
    · split
      · intro h; exact absurd rfl h
      · intro _
        rw [previewStep_processedMessages, pushMessage_processedMessages]
        simp
  · intro h
    exact absurd (previewStep_progressMessages _ _) h

theorem messageStep_taskError (d : RawEvent) (s2 : ProgressState) :
    (messageStep d s2).taskError = s2.taskError := by
  unfold messageStep
  split
  · split
    · exact previewStep_taskError _ _
    · split
      · rfl
      · rw [previewStep_taskError, pushMessage_taskError]
  · exact previewStep_taskError _ _

theorem messageStep_taskStatus (d : RawEvent) (s2 : ProgressState) :
    (messageStep d s2).taskStatus = s2.taskStatus := by
  unfold messageStep
  split
  · split
    · exact previewStep_taskStatus _ _
    · split
      · rfl
      · rw [previewStep_taskStatus, pushMessage_taskStatus]
  · exact previewStep_taskStatus _ _

theorem applyData_messages_shape (d : RawEvent) (s : ProgressState) :
    ∃ rest, (applyData d s).progressMessages = s.progressMessages ++ rest
      ∧ rest.length ≤ 1 := by
  unfold applyData
  split
  · exact ⟨[], by simp⟩
  · obtain ⟨rest, heq, hlen⟩ :=
      messageStep_messages_shape d (errorStep d (statusStep d s))
    refine ⟨rest, ?_, hlen⟩
    rw [heq, errorStep_progressMessages, statusStep_progressMessages]

theorem applyData_messages_length (d : RawEvent) (s : ProgressState) :
    (applyData d s).progressMessages.length
      ≤ s.progressMessages.length + 1 := by
  obtain ⟨rest, heq, hlen⟩ := applyData_messages_shape d s
  rw [heq, List.length_append]
  omega

theorem applyData_messages_of_contains (d : RawEvent) (s : ProgressState)
    (h : s.processedMessages.contains (generateMessageKey d) = true) :
    (applyData d s).progressMessages = s.progressMessages := by
  unfold applyData
  split
  · rfl
  · rw [messageStep_of_contains, errorStep_progressMessages,
      statusStep_progressMessages]
    rw [errorStep_processedMessages, statusStep_processedMessages]
    exact h

theorem applyData_changed_contains (d : RawEvent) (s : ProgressState)
    (h : (applyData d s).progressMessages ≠ s.progressMessages) :
    (applyData d s).processedMessages.contains (generateMessageKey d)
      = true := by
  revert h
  unfold applyData
  split
  · intro h; exact absurd rfl h
  · intro h
    apply messageStep_changed_contains
    intro heq
    apply h
    rw [heq, errorStep_progressMessages, statusStep_progressMessages]

theorem applyData_taskError_of_not_guard (d : RawEvent) (s : ProgressState)
    (h : (s.taskStatus == some "failed" && d.status == some "completed")
          = false) :
    (applyData d s).taskError = (errorStep d (statusStep d s)).taskError := by
  unfold applyData
  rw [if_neg (by simp [h]), messageStep_taskError]

theorem applyData_taskStatus_of_not_guard (d : RawEvent) (s : ProgressState)
    (h : (s.taskStatus == some "failed" && d.status == some "completed")
          = false) :
    (applyData d s).taskStatus = (statusStep d s).taskStatus := by
  unfold applyData
  rw [if_neg (by simp [h]), messageStep_taskStatus, errorStep_taskStatus]

theorem errorStep_taskError_def (d : RawEvent) (s : ProgressState) :
    (errorStep d s).taskError =
      (if d.error.isSome then d.error
       else if d.status == some "failed" then some (defaultTaskError d)
       else if !(d.status == some "failed") then none
       else s.taskError) := rfl

theorem errOk_applyData (d : RawEvent) (s : ProgressState)
    (hd : d.error = none)
    (hs : s.taskError ≠ none → s.taskStatus = some "failed") :
    (applyData d s).taskError ≠ none
      → (applyData d s).taskStatus = some "failed" := by
  by_cases hg : (s.taskStatus == some "failed" && d.status == some "completed")
      = true
  · rw [applyData_of_guard d s hg]
    exact hs
  · have hg2 : (s.taskStatus == some "failed" && d.status == some "completed")
        = false := by
      cases hb : (s.taskStatus == some "failed" && d.status == some "completed")
      · rfl
      · exact absurd hb hg
    rw [applyData_taskError_of_not_guard d s hg2,
      applyData_taskStatus_of_not_guard d s hg2, errorStep_taskError_def]
    rw [hd]
    by_cases hf : (d.status == some "failed") = true
    · have hfs : d.status = some "failed" := by
        exact eq_of_beq hf
      intro _
      unfold statusStep
      rw [hfs]
      simp [truthyS]
    · have hf2 : (d.status == some "failed") = false := by
        cases hb : (d.status == some "failed")
        · rfl
        · exact absurd hb hf
      rw [hf2]
      simp

theorem errClear_applyData (d : RawEvent) (s : ProgressState)
    (hd : d.error = none)
    (hf : d.status ≠ some "failed")
    (hng : ¬(s.taskStatus = some "failed" ∧ d.status = some "completed")) :
    (applyData d s).taskError = none := by
  have hg2 : (s.taskStatus == some "failed" && d.status == some "completed")
      = false := by
    cases hb : (s.taskStatus == some "failed" && d.status == some "completed")
    · rfl
    · rw [Bool.and_eq_true] at hb
      exact absurd ⟨eq_of_beq hb.1, eq_of_beq hb.2⟩ hng
  rw [applyData_taskError_of_not_guard d s hg2, errorStep_taskError_def, hd]
  have hf2 : (d.status == some "failed") = false := by
    cases hb : (d.status == some "failed")
    · rfl
    · exact absurd (eq_of_beq hb) hf
  rw [hf2]
  simp

theorem errDefault_applyData (d : RawEvent) (s : ProgressState)
    (hd : d.error = none)
    (hf : d.status = some "failed") :
    (applyData d s).taskError = some (defaultTaskError d) := by
  have hg2 : (s.taskStatus == some "failed" && d.status == some "completed")
      = false := by
    cases hb : (s.taskStatus == some "failed" && d.status == some "completed")
    · rfl
    · rw [Bool.and_eq_true] at hb
      have := eq_of_beq hb.2
      rw [hf] at this
      simp at this
  rw [applyData_taskError_of_not_guard d s hg2, errorStep_taskError_def, hd]
  have hf2 : (d.status == some "failed") = true := by
    rw [hf]
    rfl
  rw [hf2]
  simp

theorem errOk_runOps (ops : List AggOp) :
    ∀ s : ProgressState,
      (ops.all opCleanB) = true
      → (s.taskError ≠ none → s.taskStatus = some "failed")
      → ((runOps ops s).taskError ≠ none
          → (runOps ops s).taskStatus = some "failed") := by
  induction ops with
  | nil => intro s _ hs; exact hs
  | cons op rest ih =>
      intro s hall hs
      rw [List.all_cons, Bool.and_eq_true] at hall
      unfold runOps
      rw [List.foldl_cons]
      apply ih (aggStep s op) hall.2
      cases op with
      | apply d =>
          have hd : d.error = none := by
            have := hall.1
            unfold opCleanB at this
            exact Option.eq_none_of_isNone this
          exact errOk_applyData d s hd hs
      | reset =>
          intro hx
          exact absurd rfl hx

theorem addPreviewUrl_nodup (u : String) (s : ProgressState)
    (h : (s.previewImages.map PreviewImage.url).Nodup) :
    ((addPreviewUrl u s).previewImages.map PreviewImage.url).Nodup := by
  unfold addPreviewUrl
  split
  · exact h
  · rename_i hany
    rw [List.map_append]
    rw [List.nodup_append]
    refine ⟨h, by simp, ?_⟩
    intro x hx
    simp only [List.map_cons, List.map_nil, List.mem_singleton]
    intro hxu
    rw [List.mem_map] at hx
    obtain ⟨p, hp, hpu⟩ := hx
    apply hany
    rw [List.any_eq_true]
    refine ⟨p, hp, ?_⟩
    rw [beq_iff_eq, hpu, hxu]

theorem addImg_nodup (img : PreviewImageRef) (s : ProgressState)
    (h : (s.previewImages.map PreviewImage.url).Nodup) :
    ((addImg s img).previewImages.map PreviewImage.url).Nodup := by
  unfold addImg
  split
  · exact addPreviewUrl_nodup _ _ h
  · exact h

theorem foldlAddImg_nodup (imgs : List PreviewImageRef) :
    ∀ s : ProgressState,
      (s.previewImages.map PreviewImage.url).Nodup
      → ((imgs.foldl addImg s).previewImages.map PreviewImage.url).Nodup := by
  induction imgs with
  | nil => intro s h; exact h
  | cons img rest ih =>
      intro s h
      rw [List.foldl_cons]
      exact ih _ (addImg_nodup img s h)

theorem previewStep_nodup (d : RawEvent) (s : ProgressState)
    (h : (s.previewImages.map PreviewImage.url).Nodup) :
    ((previewStep d s).previewImages.map PreviewImage.url).Nodup := by
  unfold previewStep
  split
  · unfold previewMany
    have h1 : ((previewSingle d s).previewImages.map PreviewImage.url).Nodup
        := by
      unfold previewSingle
      split
      · exact addPreviewUrl_nodup _ _ h
      · exact h
    cases d.preview_images with
    | some imgs => exact foldlAddImg_nodup imgs _ h1
    | none => exact h1
  · exact h

theorem messageStep_nodup (d : RawEvent) (s2 : ProgressState)
    (h : (s2.previewImages.map PreviewImage.url).Nodup) :
    ((messageStep d s2).previewImages.map PreviewImage.url).Nodup := by
  unfold messageStep
  split
  · split
    · exact previewStep_nodup _ _ h
    · split
      · exact h
      · apply previewStep_nodup
        rw [pushMessage_previewImages]
        exact h
  · exact previewStep_nodup _ _ h

theorem applyData_nodup (d : RawEvent) (s : ProgressState)
    (h : (s.previewImages.map PreviewImage.url).Nodup) :
    ((applyData d s).previewImages.map PreviewImage.url).Nodup := by
  unfold applyData
  split
  · exact h
  · apply messageStep_nodup
    rw [errorStep_previewImages, statusStep_previewImages]
    exact h

theorem runOps_nodup (ops : List AggOp) :
    ∀ s : ProgressState,
      (s.previewImages.map PreviewImage.url).Nodup
      → ((runOps ops s).previewImages.map PreviewImage.url).Nodup := by
  induction ops with
  | nil => intro s h; exact h
  | cons op rest ih =>
      intro s h
      unfold runOps
      rw [List.foldl_cons]
      apply ih
      cases op with
      | apply d => exact applyData_nodup d s h
      | reset => simp [aggStep, resetProgress]

end Progress

namespace WS

theorem disconnect_taskId (s : WSState) : (disconnect s).taskId = none := rfl

theorem connect_taskId (t : String) (s : WSState) :
    (connect t s).taskId = none := rfl

theorem wsStep_taskId_none (s : WSState) (op : WSOp)
    (h : s.taskId = none) : (wsStep s op).taskId = none := by
  cases op with
  | connectOp t => exact connect_taskId t s
  | disconnectOp => exact disconnect_taskId s
  | onopenOp =>
      unfold wsStep onopen
      cases s.socket <;> simp [h]
  | oncloseOp =>
      unfold wsStep oncloseUnexpected
      cases hs : s.socket with
      | none => exact h
      | some sock =>
          rw [if_neg]
          · exact h
          · unfold oncloseReconnectCond
            rw [h]
            simp
  | onerrorOp => exact h
  | timerFireOp =>
      unfold wsStep timerFire
      cases hp : s.pending with
      | none => exact h
      | some tid => simp only [h]


theorem runWS_taskId_none (ops : List WSOp) :
    ∀ s : WSState, s.taskId = none → (runWS ops s).taskId = none := by
  induction ops with
  | nil => intro s h; exact h
  | cons op rest ih =>
      intro s h
      unfold runWS
      rw [List.foldl_cons]
      exact ih _ (wsStep_taskId_none s op h)

theorem disconnect_socket (s : WSState) : (disconnect s).socket = none := by
  unfold disconnect
  cases s.reconnectTimer <;> cases hs : s.socket <;> simp [hs]

theorem isConnected_disconnect (s : WSState) :
    isConnected (disconnect s) = false := by
  unfold isConnected
  rw [disconnect_socket]

end WS

/-!
Claim theorems. Each claim of the specification is settled against the
embedding above.
-/

open Progress WS TaskCtl Conn

/-- C1: Terminal-state stickiness. For every aggregated state whose status
is `failed`, applying any input whose unwrapped event reports status
`completed` through `updateTaskProgress` returns the state completely
unchanged: status, messages, previews and error are all identical. -/
theorem c1_terminal_stickiness (s : ProgressState) (i : RawInput)
    (d : RawEvent)
    (hstate : s.taskStatus = some "failed")
    (hdata : effectiveData i = some d)
    (hev : d.status = some "completed") :
    updateTaskProgress i s = .ok s := by
  unfold updateTaskProgress
  rw [hdata]
  have hg : (s.taskStatus == some "failed" && d.status == some "completed")
      = true := by
    rw [hstate, hev]
    rfl
  show Except.ok (applyData d s) = Except.ok s
  rw [applyData_of_guard d s hg]

/-- C1 witness: a concrete failed state and a concrete completed event. -/
theorem c1_witness :
    updateTaskProgress (RawInput.obj none { status := some "completed" })
        { initialState with taskStatus := some "failed" }
      = .ok { initialState with taskStatus := some "failed" } :=
  c1_terminal_stickiness
    { initialState with taskStatus := some "failed" }
    (RawInput.obj none { status := some "completed" })
    { status := some "completed" } rfl rfl rfl

/-- C2 counterexample: the claim demands that two applications of events
with an identical `(current_step, progress, step_description)` triple append
exactly one ProgressMessage from any state. From the initial state, applying
the event `{status: failed, current_step: s, progress: 10,
step_description: 已完成}` twice appends zero messages: the
completion-suppression branch returns early both times without recording the
dedup key, so no message is ever admitted. -/
theorem c2_counterexample :
    (applyData
        { status := some "failed", current_step := some "s",
          progress := some 10, step_description := some "已完成" }
        (applyData
          { status := some "failed", current_step := some "s",
            progress := some 10, step_description := some "已完成" }
          initialState)).progressMessages.length = 0 := rfl

/-- C2 (amended): applying two events carrying an identical
`(current_step, progress, step_description)` triple appends at most one
ProgressMessage; if the first application admits a message, the second adds
none; and an event whose dedup key is already in the processed set never
changes the messages list. -/
theorem c2_message_dedup (s : ProgressState) (d1 d2 : RawEvent)
    (h1 : d2.current_step = d1.current_step)
    (h2 : d2.progress = d1.progress)
    (h3 : d2.step_description = d1.step_description) :
    (applyData d2 (applyData d1 s)).progressMessages.length
        ≤ s.progressMessages.length + 1
    ∧ ((applyData d1 s).progressMessages ≠ s.progressMessages
        → (applyData d2 (applyData d1 s)).progressMessages
            = (applyData d1 s).progressMessages)
    ∧ (s.processedMessages.contains (generateMessageKey d1) = true
        → (applyData d1 s).progressMessages = s.progressMessages) := by
  have hkey : generateMessageKey d2 = generateMessageKey d1 :=
    generateMessageKey_congr d1 d2 h1 h2 h3
  refine ⟨?_, ?_, ?_⟩
  · by_cases hch : (applyData d1 s).progressMessages = s.progressMessages
    · calc (applyData d2 (applyData d1 s)).progressMessages.length
          ≤ (applyData d1 s).progressMessages.length + 1 :=
            applyData_messages_length d2 (applyData d1 s)
        _ = s.progressMessages.length + 1 := by rw [hch]
    · have hc := applyData_changed_contains d1 s hch
      rw [applyData_messages_of_contains d2 _ (by rw [hkey]; exact hc)]
      exact applyData_messages_length d1 s
  · intro hch
    have hc := applyData_changed_contains d1 s hch
    exact applyData_messages_of_contains d2 _ (by rw [hkey]; exact hc)
  · exact applyData_messages_of_contains d1 s

/-- C2 witness: the dedup facts instantiated at a concrete duplicate
`processing` event applied twice from the initial state. -/
theorem c2_witness :
    (applyData
        { status := some "processing", current_step := some "plan",
          progress := some 10, step_description := some "planning" }
        (applyData
          { status := some "processing", current_step := some "plan",
            progress := some 10, step_description := some "planning" }
          initialState)).progressMessages.length
      ≤ initialState.progressMessages.length + 1 :=
  (c2_message_dedup initialState
    { status := some "processing", current_step := some "plan",
      progress := some 10, step_description := some "planning" }
    { status := some "processing", current_step := some "plan",
      progress := some 10, step_description := some "planning" }
    rfl rfl rfl).1

/-- C3: the reconnect machinery is dead code. After `connect('t1')`, a
successful open and then an unexpected closure, the service schedules no
reconnect attempt at all: no timer is pending, the attempt counter is still
0, the service reports not connected, and `taskId` is `null` — because
`connect` assigned `this.taskId` and then called `disconnect()`, which reset
it to `null` before the socket was even created, so the `onclose` guard
`this.taskId && attempts < max` can never pass. The specified behavior
(a reconnect after a fixed delay, up to 5 attempts) never happens. -/
theorem c3_reconnect_never_scheduled :
    (runWS [.connectOp "t1", .onopenOp, .oncloseOp] initWSState).pending
        = none
    ∧ (runWS [.connectOp "t1", .onopenOp, .oncloseOp]
        initWSState).reconnectAttempts = 0
    ∧ isConnected (runWS [.connectOp "t1", .onopenOp, .oncloseOp]
        initWSState) = false
    ∧ (runWS [.connectOp "t1", .onopenOp, .oncloseOp] initWSState).taskId
        = none :=
  ⟨rfl, rfl, rfl, rfl⟩

/-- C4: `initWebSocket` with the task id of the currently open connection is
not a no-op. With the service holding an open socket (generation 0) for task
`t`, calling `initWebSocket "t"` tears that socket down and creates a brand
new one (generation 1, connecting): the idempotency guard
`isConnected() && getTaskId() === taskId` never passes because `getTaskId()`
is always `null` after `connect` returns. -/
theorem c4_connect_not_idempotent :
    (runWS [.connectOp "t", .onopenOp] initWSState).socket
        = some { gen := 0, taskId := "t", readyState := .opened }
    ∧ (initWebSocket "t" (runWS [.connectOp "t", .onopenOp]
        initWSState)).socket
        = some { gen := 1, taskId := "t", readyState := .connecting }
    ∧ initWebSocket "t" (runWS [.connectOp "t", .onopenOp] initWSState)
        ≠ runWS [.connectOp "t", .onopenOp] initWSState :=
  ⟨rfl, rfl, by decide⟩

/-- C5 counterexample: the claim requires that two events referencing the
same preview URL yield exactly one PreviewArtifact whether the URL is
carried in `preview_url` or in `preview_images`. But an event whose URL is
carried only in `preview_images` while its status is `processing` fails the
admission gate `(status === 'completed' && !error) || preview_url`, so
applying it twice from the initial state yields zero artifacts, not one. -/
theorem c5_counterexample :
    (applyData
        { status := some "processing",
          preview_images := some
            [{ slide_index := some 1, preview_url := some "u" }] }
        (applyData
          { status := some "processing",
            preview_images := some
              [{ slide_index := some 1, preview_url := some "u" }] }
          initialState)).previewImages.length = 0 := rfl

/-- C5 (amended): preview URLs have set semantics within what the gate
admits. After any sequence of apply and reset operations from the initial
state no two PreviewArtifacts share a URL; two events carrying the same URL
in `preview_url` yield exactly one artifact; two events carrying different
URLs in `preview_url` yield two; but URLs carried only in `preview_images`
are admitted just when status is `completed` with no error set. -/
theorem c5_preview_url_set (ops : List AggOp) :
    ((runOps ops initialState).previewImages.map PreviewImage.url).Nodup
    ∧ (applyData { preview_url := some "u" }
        (applyData { preview_url := some "u" }
          initialState)).previewImages.map PreviewImage.url = ["u"]
    ∧ (applyData { preview_url := some "b" }
        (applyData { preview_url := some "a" }
          initialState)).previewImages.map PreviewImage.url = ["a", "b"] := by
  refine ⟨?_, rfl, rfl⟩
  apply runOps_nodup
  simp [initialState]

/-- C6 counterexample: the claim says frames of type
`connection_established` or `pong` never reach `updateTaskProgress`. But the
`useWebSocket` composable forwards `pong` frames untouched, and the
singleton service's `onmessage` handler forwards even a
`connection_established` frame straight into the store, observably mutating
it (the frame, carrying no recognized fields, clears a stored error). -/
theorem c6_counterexample :
    composableForward (some (.obj none { type := some "pong" }))
        = some (.obj none { type := some "pong" })
    ∧ serviceHandleFrame
        (some (.obj none { type := some "connection_established" }))
        { initialState with
            taskStatus := some "failed"
            taskError := some (defaultTaskError emptyEvent) }
      ≠ { initialState with
            taskStatus := some "failed"
            taskError := some (defaultTaskError emptyEvent) } :=
  ⟨rfl, by decide⟩

/-- C6 (amended): the `useWebSocket` composable filters exactly the frames
whose `type` is `connection_established`, forwarding every other parsed
frame (`pong` included) to its callback, while the singleton service's
handler forwards every parsed frame to `updateTaskProgress` unfiltered. -/
theorem c6_lifecycle_filtering (df : Option RawEvent) (self : RawEvent)
    (v : RawInput) (s s1 : ProgressState)
    (hv : updateTaskProgress v s = .ok s1) :
    (self.type = some "connection_established"
      → composableForward (some (.obj df self)) = none)
    ∧ (self.type ≠ some "connection_established"
      → composableForward (some (.obj df self)) = some (.obj df self))
    ∧ serviceHandleFrame (some v) s = s1 := by
  refine ⟨?_, ?_, ?_⟩
  · intro h
    show (if (self.type == some "connection_established") = true then none
          else some (RawInput.obj df self)) = none
    rw [h]
    rfl
  · intro h
    show (if (self.type == some "connection_established") = true then none
          else some (RawInput.obj df self)) = some (RawInput.obj df self)
    rw [if_neg]
    intro hb
    exact h (eq_of_beq hb)
  · show (match updateTaskProgress v s with
          | .ok s2 => s2
          | .error _ => s) = s1
    rw [hv]

/-- C6 witness: the filtering facts instantiated at a `pong` frame and at a
primitive frame applied through the service handler. -/
theorem c6_witness :
    ((RawEvent.type { type := some "pong" })
        = some "connection_established"
      → composableForward (some (.obj none { type := some "pong" })) = none)
    ∧ ((RawEvent.type { type := some "pong" })
        ≠ some "connection_established"
      → composableForward (some (.obj none { type := some "pong" }))
          = some (.obj none { type := some "pong" }))
    ∧ serviceHandleFrame (some .prim) initialState = initialState :=
  c6_lifecycle_filtering none { type := some "pong" } .prim
    initialState initialState rfl

/-- C7 counterexample: the claim says `cancelTask` tears down the connection
and marks status `cancelled` regardless of the cancellation call's outcome.
In the code both actions sit inside the `try` block after the `await`, so
when the API call fails the client stays connected and the status is
untouched. -/
theorem c7_counterexample :
    isConnected (cancelTask false "boom"
        { ws := runWS [.connectOp "t", .onopenOp] initWSState
          progress := { initialState with taskStatus := some "processing" }
          clientCurrentTask := some "t"
          errorMsg := none }).ws = true
    ∧ (cancelTask false "boom"
        { ws := runWS [.connectOp "t", .onopenOp] initWSState
          progress := { initialState with taskStatus := some "processing" }
          clientCurrentTask := some "t"
          errorMsg := none }).progress.taskStatus = some "processing" :=
  ⟨rfl, rfl⟩

/-- C7 (amended): with a current task id, `cancelTask` on API success
disconnects the socket, sets status `cancelled` and clears `isGenerating`;
on API failure it only records the error message (`err.message` or the
generic text), leaving the connection and the progress state untouched;
without a current task id it does nothing. -/
theorem c7_cancel_success_only (st : AppState) (t : String)
    (emsg : String)
    (h : st.clientCurrentTask = some t) :
    (cancelTask true "" st).progress.taskStatus = some "cancelled"
    ∧ (cancelTask true "" st).progress.isGenerating = false
    ∧ isConnected (cancelTask true "" st).ws = false
    ∧ cancelTask false emsg st
        = { st with errorMsg := some (cancelErrMsg emsg) }
    ∧ (∀ st2 : AppState, st2.clientCurrentTask = none
        → cancelTask true "" st2 = st2 ∧ cancelTask false emsg st2 = st2) := by
  refine ⟨?_, ?_, ?_, ?_, ?_⟩
  · simp only [cancelTask, h]
    rfl
  · simp only [cancelTask, h]
    rfl
  · simp only [cancelTask, h]
    simp only [if_true]
    exact isConnected_disconnect st.ws
  · simp only [cancelTask, h]
    rfl
  · intro st2 h2
    constructor <;> simp only [cancelTask, h2]

/-- C7 witness: the amended cancellation behavior at a concrete connected
state. -/
theorem c7_witness :
    (cancelTask true ""
        { ws := runWS [.connectOp "t", .onopenOp] initWSState
          progress := { initialState with taskStatus := some "processing" }
          clientCurrentTask := some "t"
          errorMsg := none }).progress.taskStatus = some "cancelled" :=
  (c7_cancel_success_only
    { ws := runWS [.connectOp "t", .onopenOp] initWSState
      progress := { initialState with taskStatus := some "processing" }
      clientCurrentTask := some "t"
      errorMsg := none } "t" "boom" rfl).1

/-- C8 counterexample: the claim says the error field is non-null only while
status is `failed`. But an event carrying explicit error detail is stored
verbatim regardless of its status: applying
`{status: processing, error: {...}}` to the initial state leaves status
`processing` with a non-null stored error. -/
theorem c8_counterexample :
    (applyData
        { status := some "processing"
          error := some { has_error := true
                          error_code := some "E"
                          error_message := some "boom"
                          can_retry := false } }
        initialState).taskStatus = some "processing"
    ∧ (applyData
        { status := some "processing"
          error := some { has_error := true
                          error_code := some "E"
                          error_message := some "boom"
                          can_retry := false } }
        initialState).taskError
      = some { has_error := true
               error_code := some "E"
               error_message := some "boom"
               can_retry := false } :=
  ⟨rfl, rfl⟩

/-- C8 (amended): the error discipline the code actually implements. When no
applied event carries explicit error detail, the error field is non-null
only while status is `failed` (over any sequence of apply and reset calls
from the initial state); an event without error detail and with a
non-`failed` status clears the stored error unless the event is discarded by
terminal stickiness; and an event with status `failed` but no error detail
stores the synthesized default error (code `UNKNOWN_ERROR`, message from the
step description or the generic text, retryable). -/
theorem c8_error_only_while_failed :
    (∀ ops : List AggOp, (ops.all opCleanB) = true
      → (runOps ops initialState).taskError ≠ none
      → (runOps ops initialState).taskStatus = some "failed")
    ∧ (∀ (d : RawEvent) (s : ProgressState), d.error = none
        → d.status ≠ some "failed"
        → ¬(s.taskStatus = some "failed" ∧ d.status = some "completed")
        → (applyData d s).taskError = none)
    ∧ (∀ (d : RawEvent) (s : ProgressState), d.error = none
        → d.status = some "failed"
        → (applyData d s).taskError = some (defaultTaskError d)) := by
  refine ⟨?_, ?_, ?_⟩
  · intro ops hall
    apply errOk_runOps ops initialState hall
    intro hx
    exact absurd rfl hx
  · intro d s hd hf hng
    exact errClear_applyData d s hd hf hng
  · intro d s hd hf
    exact errDefault_applyData d s hd hf

/-- C8 witness: the error discipline instantiated at concrete events — a
clean failed event applied once from the initial state, a clean processing
event, and a clean failed event with a step description. -/
theorem c8_witness :
    ((runOps [.apply { status := some "failed" }] initialState).taskError
        ≠ none
      → (runOps [.apply { status := some "failed" }]
          initialState).taskStatus = some "failed")
    ∧ (applyData { status := some "processing" } initialState).taskError
        = none
    ∧ (applyData { status := some "failed"
                   step_description := some "boom" }
        initialState).taskError
      = some (defaultTaskError { status := some "failed"
                                 step_description := some "boom" }) :=
  ⟨c8_error_only_while_failed.1 [.apply { status := some "failed" }]
      (by decide),
   c8_error_only_while_failed.2.1 { status := some "processing" }
      initialState rfl (by decide) (by decide),
   c8_error_only_while_failed.2.2
      { status := some "failed", step_description := some "boom" }
      initialState rfl rfl⟩

/-- C10: in the singleton `WebSocketService` the private `taskId` field is
`null` after every public operation: `connect` assigns it and then calls
`disconnect()`, which resets it (and `reconnectAttempts`) before the new
socket is created, and nothing ever sets it again — so `getTaskId()` returns
`null` after any sequence of further events, and the `onclose` reconnect
condition `this.taskId && attempts < max` can never hold. -/
theorem c10_taskId_always_null (s : WSState) (t : String)
    (ops : List WSOp) :
    (connect t s).taskId = none
    ∧ (disconnect s).taskId = none
    ∧ getTaskId (runWS ops (connect t s)) = none
    ∧ oncloseReconnectCond (runWS ops (connect t s)) = false := by
  have h1 := connect_taskId t s
  refine ⟨h1, disconnect_taskId s, ?_, ?_⟩
  · unfold getTaskId
    exact runWS_taskId_none ops _ h1
  · unfold oncloseReconnectCond
    rw [runWS_taskId_none ops _ h1]
    rfl
